import Mathlib

/-!
# Verification of the frappe user / newsletter core

Shallow embedding of `frappe/core/doctype/user/user.py` and
`frappe/email/doctype/newsletter/newsletter.py` (the two source files of this
repository), together with theorems settling the frozen claims about them.

The embedding keeps the names and control flow of the Python functions.  External
collaborators (database, mail dispatcher, rate gate, cache, session manager)
are modelled as explicit parameters or as fields of an explicit state record.
The code runs under Python 2 (`print x` statement syntax in the source), so
Python-2-specific semantics (`None < int` comparisons, `None + 1` raising
`TypeError`) are modelled where the source can reach them.
-/

namespace Frappe

/-- `STANDARD_USERS = ("Guest", "Administrator")` (user.py line 17). -/
def STANDARD_USERS : List String := ["Guest", "Administrator"]

/-- `user_type` field: the two values used by the source. -/
inductive UserType where
  | systemUser
  | websiteUser
deriving DecidableEq, Repr

/-- Errors raised by the user module.  `frappe.throw` raises an exception;
`MaxUsersReachedError` is the explicit subclass at user.py line 19; the other
throws are plain `ValidationError`s distinguished here by their message.
`typeErr` models a Python `TypeError` (reachable in `validate_user_limit` when
`get_total_users()` returns SQL NULL and `+= 1` is applied to `None`). -/
inductive UserErr where
  | cannotDisable      -- throw: User ... cannot be disabled
  | lastManager        -- "There should remain at least one System Manager"
  | maxUsersReached    -- MaxUsersReachedError
  | typeErr            -- Python TypeError (None + 1)
deriving DecidableEq, Repr

/-- A row of `tabUser` with the columns the verified queries read.
`simultaneous_sessions` is the integer column summed by `get_total_users`;
`roles` stands for the `tabUserRole` child rows with `parent = name`. -/
structure DbUser where
  name : String
  enabled : Bool
  user_type : UserType
  simultaneous_sessions : Nat
  docstatus : Nat
  roles : List String
deriving DecidableEq, Repr

/-- `get_total_users()` (user.py lines 663-667):
`select sum(simultaneous_sessions) from tabUser where enabled=1 and
user_type="System User" and name not in STANDARD_USERS`.
SQL `SUM` over zero rows is NULL, which Python receives as `None`; hence the
`Option`. -/
def get_total_users (db : List DbUser) : Option Nat :=
  let rows := db.filter fun u =>
    u.enabled && u.user_type == UserType.systemUser && !STANDARD_USERS.contains u.name
  if rows.isEmpty then none else some (rows.map DbUser.simultaneous_sessions).sum

/-- `User.validate_user_limit` (user.py lines 455-481), acting on the document
fields it reads (`user_type`, `enabled`, `is_new()`), the limit configuration
(`get_limits().users`, `none` when the key is absent) and the database.
Python-2 points modelled exactly:
* `if not limits.users` is true for `None` and for `0`;
* when `get_total_users()` is `None` and the record is new, `total_users += 1`
  raises `TypeError`;
* when it is `None` and the record is not new, `None > limits.users` is
  `False` in Python 2, so no error is raised. -/
def validate_user_limit (user_type : UserType) (enabled : Bool) (is_new : Bool)
    (limits_users : Option Nat) (db : List DbUser) : Except UserErr Unit :=
  if user_type == UserType.websiteUser then Except.ok ()
  else if !enabled then Except.ok ()
  else match limits_users with
    | none => Except.ok ()
    | some 0 => Except.ok ()
    | some limit =>
      match get_total_users db with
      | none => if is_new then Except.error UserErr.typeErr else Except.ok ()
      | some t =>
        let total_users := if is_new then t + 1 else t
        if total_users > limit then Except.error UserErr.maxUsersReached
        else Except.ok ()

/-- Modelled from the words of the spec (claim wording), for comparison with
the `get_total_users` of the source: "count = the number of currently enabled System
User accounts excluding the two standard accounts, plus 1 if the record is
new". -/
def specUserCount (db : List DbUser) (is_new : Bool) : Nat :=
  (db.filter fun u =>
    u.enabled && u.user_type == UserType.systemUser && !STANDARD_USERS.contains u.name).length
    + (if is_new then 1 else 0)

/-- `User.get_other_system_managers` (user.py lines 241-247): does some user
distinct from Administrator and from `selfName` hold the System Manager role,
with `docstatus < 2` and `enabled = 1`?  (The SQL uses `limit 1`, so only
existence matters.) -/
def get_other_system_managers (selfName : String) (db : List DbUser) : Bool :=
  db.any fun u =>
    u.roles.contains "System Manager" && u.docstatus < 2 && u.enabled
      && u.name != "Administrator" && u.name != selfName

/-- `User.check_enable_disable` (user.py lines 92-102).  The session logout is
a side effect on the session manager and carries no information for the
verified claims, so the function returns only success or the raised error.
`a_system_manager_should_exist` (lines 299-301) is inlined: it throws when
`get_other_system_managers` returns no row. -/
def check_enable_disable (selfName : String) (enabled : Bool) (db : List DbUser) :
    Except UserErr Unit :=
  if !enabled && STANDARD_USERS.contains selfName then Except.error UserErr.cannotDisable
  else if !enabled && !get_other_system_managers selfName db then
    Except.error UserErr.lastManager
  else Except.ok ()

/-- Saving user `selfName` as disabled: the validation runs
`check_enable_disable`; on success the `enabled` flag of the stored row becomes
false, on failure the database is unchanged (validation aborts the save). -/
def disableUser (selfName : String) (db : List DbUser) : Except UserErr (List DbUser) :=
  match check_enable_disable selfName false db with
  | Except.error e => Except.error e
  | Except.ok _ => Except.ok (db.map fun u =>
      if u.name == selfName then { u with enabled := false } else u)

/-- Run a sequence of disable attempts, ignoring the ones that fail (a failed
save leaves the database unchanged). -/
def runDisables (names : List String) (db : List DbUser) : List DbUser :=
  names.foldl (fun acc n =>
    match disableUser n acc with
    | Except.error _ => acc
    | Except.ok db2 => db2) db

/-- At least one enabled account holds the System Manager role. -/
def someEnabledSystemManager (db : List DbUser) : Prop :=
  ∃ u ∈ db, u.enabled = true ∧ "System Manager" ∈ u.roles

instance (db : List DbUser) : Decidable (someEnabledSystemManager db) := by
  unfold someEnabledSystemManager; infer_instance

/-! ## Role handling inside `User.validate`

`validate` (user.py lines 47-71) runs, in this order, the role-touching steps
`add_system_manager_role` (line 57), `ensure_unique_roles` (line 62),
`remove_all_roles_for_guest` (line 63) and `remove_disabled_roles` (line 65).
The `user_roles` child table is modelled as the list of the `role`
strings of its rows; the child rows are distinct Python objects, so `list.remove(d)`
removes exactly the visited row, i.e. the element at the current index. -/

/-- `User.add_system_manager_role` (user.py lines 131-155).  `user_type` is
the value of the field on entry (`set_system_user` runs only afterwards);
`other_sm` is the boolean outcome of the `get_other_system_managers` query. -/
def add_system_manager_role (enabled : Bool) (name : String) (user_type : UserType)
    (other_sm : Bool) (user_roles : List String) : List String :=
  if !enabled || user_roles.contains "System Manager" then user_roles
  else
    let r1 :=
      if !STANDARD_USERS.contains name && user_type == UserType.systemUser && !other_sm
      then user_roles ++ ["System Manager"] else user_roles
    if name == "Administrator" then r1 ++ ["System Manager", "Administrator"] else r1

/-- The loop of `User.ensure_unique_roles` (user.py lines 399-405).  The
Python `for i, d in enumerate(lst)` reads `lst[i]` and then advances `i`; when the
body removes the element at index `i`, the element that shifts into index `i`
is skipped.  `ex` is the accumulator the source names `exists`. -/
def ensureUniqueAux (l : List String) (ex : List String) (i : Nat) : List String :=
  if h : i < l.length then
    let d := l.get ⟨i, h⟩
    if d = "" || ex.contains d then ensureUniqueAux (l.eraseIdx i) ex (i + 1)
    else ensureUniqueAux l (ex ++ [d]) (i + 1)
  else l
termination_by l.length - i
decreasing_by
  · have hl := List.length_eraseIdx_of_lt h
    omega
  · omega

/-- `User.ensure_unique_roles` (user.py lines 399-405). -/
def ensure_unique_roles (user_roles : List String) : List String :=
  ensureUniqueAux user_roles [] 0

/-- `User.remove_all_roles_for_guest` (user.py lines 389-391):
`list(set(d for d in roles if d.role == "Guest"))` over distinct row objects
keeps exactly the rows whose role is "Guest" (order from a Python set is
arbitrary; source order is used here, which is one admissible order and the
properties at stake are order-independent). -/
def remove_all_roles_for_guest (name : String) (user_roles : List String) : List String :=
  if name == "Guest" then user_roles.filter (· == "Guest") else user_roles

/-- `User.remove_disabled_roles` (user.py lines 393-397): iterates over a
*copy* (`list(...)`) of the child table, so every row whose role is in the
globally disabled set is removed. -/
def remove_disabled_roles (disabled_roles : List String) (user_roles : List String) :
    List String :=
  user_roles.filter fun r => !disabled_roles.contains r

/-- The role-set result of one run of `User.validate`, composing the four
role-touching steps in source order. -/
def validateRoles (enabled : Bool) (name : String) (user_type : UserType)
    (other_sm : Bool) (disabled_roles : List String) (user_roles : List String) :
    List String :=
  remove_disabled_roles disabled_roles
    (remove_all_roles_for_guest name
      (ensure_unique_roles
        (add_system_manager_role enabled name user_type other_sm user_roles)))

/-! ## Notification sending (`on_update`) -/

/-- Python exceptions reaching the `try` block of `send_password_notification`:
`frappe.OutgoingEmailError` (the only caught class) versus any other
exception class. -/
inductive PyExc where
  | outgoingEmailError
  | otherError
deriving DecidableEq, Repr

/-- Document fields and flags read by `User.send_password_notification`
(user.py lines 199-218) and by `User.email_new_password` (lines 157-163).
`new_password` is the captured `self.__new_password` truthiness;
`mail` is the outcome of the mail collaborator (`frappe.sendmail`, reached via
the welcome or password-update mail) when a mail is attempted: `none` means
success, `some e` means it raises `e`. -/
structure NotifyDoc where
  in_insert : Bool
  name : String
  new_password : Bool
  no_welcome_mail : Bool
  send_welcome_email : Bool
  send_password_update_notification : Bool
deriving DecidableEq, Repr

/-- The body of the `try` block of `User.send_password_notification`
(user.py lines 201-214), including the inlined `email_new_password`
(lines 157-163).  `_update_password` is an external password-store write that
does not raise here; only `frappe.sendmail` can raise, with outcome `mail`. -/
def send_password_notification_body (d : NotifyDoc) (mail : Option PyExc) :
    Except PyExc Unit :=
  if d.in_insert then
    if !STANDARD_USERS.contains d.name then
      -- `if new_password: _update_password(...)` — store write, no mail, no raise
      if !d.no_welcome_mail && d.send_welcome_email then
        match mail with
        | some e => Except.error e   -- send_welcome_mail_to_user -> sendmail raises
        | none => Except.ok ()
      else Except.ok ()
    else Except.ok ()
  else
    -- email_new_password(new_password): guarded by `new_password and not in_insert`
    if d.new_password then
      if d.send_password_update_notification then
        match mail with
        | some e => Except.error e   -- password_update_mail -> sendmail raises
        | none => Except.ok ()
      else Except.ok ()
    else Except.ok ()

/-- `User.send_password_notification` (user.py lines 199-218): the body runs
under `try`, and `except frappe.OutgoingEmailError` logs the traceback and
passes; every other exception propagates. -/
def send_password_notification (d : NotifyDoc) (mail : Option PyExc) :
    Except PyExc Unit :=
  match send_password_notification_body d mail with
  | Except.error PyExc.outgoingEmailError => Except.ok ()
  | r => r

/-! ## Newsletter dispatch (`newsletter.py`)

The dispatch job is a `Newsletter` document; `recipients` is a transient
attribute (not a stored column — on a fresh load `self.get("recipients")` is
falsy).  The database/queue side effects observable to the claims are the
stored `email_sent` flag of the job, the set of enqueued background tasks and the
outbound dispatches handed to `frappe.email.queue.send`. -/

/-- Errors raised on the newsletter send paths. -/
inductive NLErr where
  | alreadySent      -- "Newsletter has already been sent"
  | notSaved         -- "Please save the Newsletter before sending"
  | emailLimit       -- raised by check_email_limit
  | sendFailed       -- any exception out of frappe.email.queue.send
deriving DecidableEq, Repr

/-- One `Email Group Member` row (columns read by the source). -/
structure Member where
  email_group : String
  email : String
  unsubscribed : Bool
deriving DecidableEq, Repr

/-- The `Newsletter` document: stored fields plus the transient
`recipients` attribute (empty on a fresh load). -/
structure Newsletter where
  name : String             -- autoname: the subject
  email_group : String
  islocal : Bool            -- self.get("__islocal"): unsaved document
  email_sent : Bool
  recipients : List String  -- transient, set by send paths
deriving DecidableEq, Repr

/-- Observable state: the job, the membership table, the enqueued background
tasks (job name, timeout) and the dispatches handed to the mail queue
(each a recipient list). -/
structure MailState where
  doc : Newsletter
  members : List Member
  enqueued : List (String × Nat)
  dispatched : List (List String)
deriving DecidableEq, Repr

/-- External collaborators of the send path: `check_email_limit` (raises when
the recipient load breaches the tenant cap) and `frappe.email.queue.send`
(may raise). -/
structure Collab where
  emailLimitOk : List String → Bool
  dispatchOk : Bool

/-- `Newsletter.get_recipients` (newsletter.py lines 74-77): emails of the
non-unsubscribed members of the group. -/
def get_recipients (st : MailState) : List String :=
  (st.members.filter fun m =>
    !m.unsubscribed && m.email_group == st.doc.email_group).map Member.email

/-- `Newsletter.queue_all` (newsletter.py lines 52-72), with `validate_send`
(lines 79-82) inlined: resolve recipients when absent, fail when the document
is unsaved, fail when `check_email_limit` raises, then hand the recipients to
`frappe.email.queue.send` (recorded in `dispatched`; failure raises and the
writes of the transaction are not committed, so the error carries no state). -/
def resolve_doc (st : MailState) : Newsletter :=
  if st.doc.recipients.isEmpty then { st.doc with recipients := get_recipients st }
  else st.doc

/-- `Newsletter.queue_all` continued: `resolve_doc` is the opening
`if not self.get("recipients"): self.recipients = self.get_recipients()`. -/
def queue_all (c : Collab) (st : MailState) : Except NLErr MailState :=
  if (resolve_doc st).islocal then Except.error NLErr.notSaved
  else if !c.emailLimitOk (resolve_doc st).recipients then Except.error NLErr.emailLimit
  else if c.dispatchOk then
    Except.ok
      { st with
        doc := resolve_doc st,
        dispatched := st.dispatched ++ [(resolve_doc st).recipients] }
  else Except.error NLErr.sendFailed

/-- `Newsletter.send_emails` (newsletter.py lines 32-50).  `is_ajax` is
`getattr(frappe.local, "is_ajax", False)`.  Fail when already sent; resolve
recipients; in the ajax branch run `validate_send` and enqueue
`send_newsletter` with the name of the job and `timeout=3000`; otherwise run
`queue_all`.  In both branches the tail of the method then sets
`email_sent = 1` (`frappe.db.set`).  A raised error aborts the request and
its transaction, leaving the stored state unchanged. -/
def send_emails (is_ajax : Bool) (c : Collab) (st : MailState) :
    Except NLErr MailState :=
  if st.doc.email_sent then Except.error NLErr.alreadySent
  else if is_ajax then
    -- validate_send() on the doc with recipients freshly resolved
    if st.doc.islocal then Except.error NLErr.notSaved
    else if !c.emailLimitOk (get_recipients st) then Except.error NLErr.emailLimit
    else
      Except.ok { st with
        doc := { st.doc with recipients := get_recipients st, email_sent := true },
        enqueued := st.enqueued ++ [(st.doc.name, 3000)] }
  else
    match queue_all c { st with doc := { st.doc with recipients := get_recipients st } } with
    | Except.error e => Except.error e
    | Except.ok st2 =>
      Except.ok { st2 with doc := { st2.doc with email_sent := true } }

/-- Result of the background handler: on failure the handler has already
committed its compensating write, so the raised error carries the observable
state. -/
inductive JobResult where
  | done (s : MailState)
  | failed (e : NLErr) (s : MailState)
deriving DecidableEq, Repr

/-- `send_newsletter` (newsletter.py lines 163-180), the enqueued background
handler: load the document fresh (transient `recipients` is empty), run
`queue_all`; on success commit; on any exception roll back the transaction,
`db_set("email_sent", 0)`, commit, log and re-raise. -/
def send_newsletter (c : Collab) (st : MailState) : JobResult :=
  match queue_all c { st with doc := { st.doc with recipients := [] } } with
  | Except.ok st2 => JobResult.done st2
  | Except.error e =>
    JobResult.failed e { st with doc := { st.doc with recipients := [], email_sent := false } }

/-- `unsubscribe` (newsletter.py lines 85-98).  `verified` is the outcome of
`verify_request()`; when it fails the function returns with no change.
`frappe.db.get_value` fetches one matching row — modelled as the first match
in table order; when found, its `unsubscribed` flag is set and saved.  The
function never raises. -/
def unsubscribeAux (email name : String) : List Member → List Member
  | [] => []
  | m :: ms =>
    if m.email == email && m.email_group == name then
      { m with unsubscribed := true } :: ms
    else m :: unsubscribeAux email name ms

/-- `unsubscribe`, entry point: wraps `unsubscribeAux` behind the
`verify_request()` gate. -/
def unsubscribe (verified : Bool) (email name : String) (members : List Member) :
    List Member :=
  if !verified then members
  else unsubscribeAux email name members

/-! ## Password update flow (`update_password`, user.py lines 507-578) -/

/-- A `tabUser` row as read by the password flow. -/
structure PwUser where
  name : String
  reset_password_key : String
  redirect_url : String
  user_type : UserType
deriving DecidableEq, Repr

/-- Observable state of the password flow: the user table, the
`redirect_after_login` cache hash, the current session user, the writes made
to the password store (`_update_password`), the verification calls made to
`login_manager.check_password`, and the session established by
`login_manager.login_as`. -/
structure PwState where
  users : List PwUser
  cacheRedirect : List (String × String)
  session_user : String
  passwords : List (String × String)
  verified : List (String × String)
  logged_in : Option String
deriving DecidableEq, Repr

/-- Result of `_get_user_for_update_password` (user.py lines 550-569):
the message dict, the user dict, Python `None` (neither
argument truthy), or the `AuthenticationError` out of `check_password`. -/
inductive GetUserRes where
  | message
  | user (name : String)
  | noneVal
  | authFail
deriving DecidableEq, Repr

/-- `_get_user_for_update_password(key, old_password)` (user.py lines
550-569).  `key`/`old_password` use `""` for Python `None` (both are falsy).
`checkOk` is the verdict of the `login_manager.check_password` collaborator;
the call itself is recorded in `verified`. -/
def _get_user_for_update_password (checkOk : Bool) (key old_password : String)
    (st : PwState) : GetUserRes × PwState :=
  if key ≠ "" then
    match st.users.find? (fun u => u.reset_password_key == key) with
    | none => (GetUserRes.message, st)
    | some u => (GetUserRes.user u.name, st)
  else if old_password ≠ "" then
    let st1 := { st with verified := st.verified ++ [(st.session_user, old_password)] }
    if checkOk then (GetUserRes.user st.session_user, st1)
    else (GetUserRes.authFail, st1)
  else (GetUserRes.noneVal, st)

/-- Caller-visible outcome of `update_password`: the returned message string,
a returned redirect URL, a propagated `AuthenticationError`, or a propagated
Python error (`res.get` on `None`, or `frappe.get_doc` on a missing user). -/
inductive PwOutcome where
  | message (s : String)
  | redirect (url : String)
  | authError
  | pyError
deriving DecidableEq, Repr

/-- `update_password(new_password, key, old_password)` (user.py lines
507-531) with `reset_user_data` (lines 571-578) inlined: resolve the user;
on the message result return it unchanged; otherwise write the new password
to the store, load the user document, capture its `redirect_url`, clear
`reset_password_key` and `redirect_url` and save, consult and consume the
`redirect_after_login` cache entry, `login_as` the user, and return `/desk`
for a System User else the redirect URL or `/`. -/
def update_password (checkOk : Bool) (new_password key old_password : String)
    (st : PwState) : PwOutcome × PwState :=
  match _get_user_for_update_password checkOk key old_password st with
  | (GetUserRes.authFail, st1) => (PwOutcome.authError, st1)
  | (GetUserRes.noneVal, st1) => (PwOutcome.pyError, st1)
  | (GetUserRes.message, st1) =>
    (PwOutcome.message "Cannot Update: Incorrect / Expired Link.", st1)
  | (GetUserRes.user user, st1) =>
    let st2 := { st1 with passwords := st1.passwords ++ [(user, new_password)] }
    match st2.users.find? (fun u => u.name == user) with
    | none => (PwOutcome.pyError, st2)
    | some user_doc =>
      let redirect_url := user_doc.redirect_url
      let st3 := { st2 with users := st2.users.map (fun u : PwUser =>
        if u.name == user then { u with reset_password_key := "", redirect_url := "" }
        else u) }
      let rs : String × PwState :=
        match st3.cacheRedirect.find? (fun p => p.1 == user) with
        | some p =>
          (p.2, { st3 with cacheRedirect := st3.cacheRedirect.filter (fun q => !(q.1 == user)) })
        | none => (redirect_url, st3)
      let st5 := { rs.2 with logged_in := some user }
      if user_doc.user_type == UserType.systemUser then (PwOutcome.redirect "/desk", st5)
      else (PwOutcome.redirect (if rs.1 ≠ "" then rs.1 else "/"), st5)

/-! ## Claims -/

/-- The single-row database used to refute claim C1: one enabled,
non-standard System User whose `simultaneous_sessions` column is 3. -/
def c1db : List DbUser :=
  [{ name := "u@x.com", enabled := true, user_type := UserType.systemUser,
     simultaneous_sessions := 3, docstatus := 0, roles := [] }]

/-- C1, counterexample: the claim says the quota check fails "exactly when"
the *number* of enabled non-standard System User accounts (plus 1 if new)
exceeds the quota.  With one such account whose `simultaneous_sessions` is 3
and a quota of 2, that number is 1 ≤ 2, yet saving the existing account
raises `MaxUsersReachedError`, because `get_total_users` sums the
`simultaneous_sessions` column instead of counting rows. -/
theorem C1_counterexample :
    validate_user_limit UserType.systemUser true false (some 2) c1db
        = Except.error UserErr.maxUsersReached
      ∧ specUserCount c1db false ≤ 2 := by
  exact ⟨rfl, by decide⟩

/-- C1, amended: for a save of an enabled System User with a positive quota
configured — outside the corner where the counted set is empty and the record
is new (there the Python-2 source raises `TypeError` on `None + 1`) — the
check fails with `MaxUsersReachedError` exactly when the SUM of
`simultaneous_sessions` over enabled non-standard System User accounts, plus
1 for a new record, exceeds the quota; Website Users and disabled saves are
skipped. -/
theorem C1_quota_counts_sessions (is_new : Bool) (limit : Nat) (db : List DbUser)
    (hpos : 0 < limit)
    (hne : ¬(is_new = true ∧ get_total_users db = none)) :
    (validate_user_limit UserType.systemUser true is_new (some limit) db
        = Except.error UserErr.maxUsersReached
      ↔ (get_total_users db).getD 0 + (if is_new then 1 else 0) > limit)
    ∧ (∀ e, validate_user_limit UserType.websiteUser e is_new (some limit) db
        = Except.ok ())
    ∧ validate_user_limit UserType.systemUser false is_new (some limit) db
        = Except.ok () := by
  obtain ⟨k, rfl⟩ : ∃ k, limit = k + 1 := ⟨limit - 1, by omega⟩
  refine ⟨?_, fun e => rfl, rfl⟩
  cases htot : get_total_users db with
  | none =>
    have hn : is_new = false := by
      cases is_new
      · rfl
      · exact absurd ⟨rfl, htot⟩ hne
    subst hn
    simp [validate_user_limit, htot]
  | some t =>
    cases is_new <;> simp [validate_user_limit, htot]

/-- C1, witness for the amended theorem: with the counterexample database
(session sum 3), quota 2, saving the existing record, the check fails — and
the hypotheses hold concretely. -/
theorem C1_witness :
    validate_user_limit UserType.systemUser true false (some 2) c1db
      = Except.error UserErr.maxUsersReached := by
  have h := (C1_quota_counts_sessions false 2 c1db (by omega) (by decide)).1
  rw [h]
  decide

/-- Collaborators for the C2 run: the rate gate passes and the mail queue
accepts. -/
def c2collab : Collab := ⟨fun _ => true, true⟩

/-- Initial state for the C2 run: a saved, unsent newsletter "N" over group
"G" with one subscribed member. -/
def c2st : MailState :=
  { doc := { name := "N", email_group := "G", islocal := false,
             email_sent := false, recipients := [] },
    members := [{ email_group := "G", email := "a@x", unsubscribed := false }],
    enqueued := [], dispatched := [] }

/-- C2, counterexample: the claim says the asynchronous call returns with the
sent-flag of the job still false.  On a concrete unsent newsletter the ajax-branch
call returns successfully having enqueued the background task — and with
`email_sent` already set to true (`frappe.db.set(self, "email_sent", 1)` runs
in both branches of `send_emails`), no dispatch having happened yet. -/
theorem C2_counterexample :
    (send_emails true c2collab c2st).map
        (fun s => (s.doc.email_sent, s.enqueued, s.dispatched))
      = Except.ok (true, [("N", 3000)], []) := rfl

/-- C2, amended: in the asynchronous context a send of an unsent, saved job
that passes the rate gate enqueues one background task carrying only the
identity key of the job with timeout 3000, performs no direct dispatch, and marks
the job Sent (`email_sent = 1`) before returning; only a later failure of the
background handler clears the flag again. -/
theorem C2_async_marks_sent (c : Collab) (st : MailState)
    (h1 : st.doc.email_sent = false) (h2 : st.doc.islocal = false)
    (h3 : c.emailLimitOk (get_recipients st) = true) :
    send_emails true c st = Except.ok
      { st with
        doc := { st.doc with recipients := get_recipients st, email_sent := true },
        enqueued := st.enqueued ++ [(st.doc.name, 3000)] } := by
  simp [send_emails, h1, h2, h3]

/-- C2, witness: the amended theorem applied to the concrete C2 run. -/
theorem C2_witness :
    send_emails true c2collab c2st = Except.ok
      { c2st with
        doc := { c2st.doc with recipients := ["a@x"], email_sent := true },
        enqueued := [("N", 3000)] } :=
  C2_async_marks_sent c2collab c2st rfl rfl rfl

/-- Helper: on success `queue_all` records exactly one dispatch (the resolved
recipient list) and touches nothing else observable. -/
lemma queue_all_ok_shape (c : Collab) (st st2 : MailState)
    (h : queue_all c st = Except.ok st2) :
    st2.dispatched = st.dispatched ++ [st2.doc.recipients]
    ∧ st2.doc.email_sent = st.doc.email_sent
    ∧ st2.members = st.members
    ∧ st2.enqueued = st.enqueued := by
  unfold queue_all at h
  split at h
  · simp at h
  · split at h
    · simp at h
    · split at h
      · injection h with h
        subst h
        refine ⟨rfl, ?_, rfl, rfl⟩
        show (resolve_doc st).email_sent = st.doc.email_sent
        unfold resolve_doc
        split <;> rfl
      · simp at h

/-- Helper: on success `send_emails` marks the job sent, and the dispatch
ledger grows by exactly one entry on the synchronous branch and not at all on
the asynchronous one. -/
lemma send_emails_ok_shape (b : Bool) (c : Collab) (st st1 : MailState)
    (h : send_emails b c st = Except.ok st1) :
    st1.doc.email_sent = true
    ∧ (b = false → st1.dispatched = st.dispatched ++ [st1.doc.recipients])
    ∧ (b = true → st1.dispatched = st.dispatched) := by
  unfold send_emails at h
  split at h
  · simp at h
  · split at h
    · next hb =>
      split at h
      · simp at h
      · split at h
        · simp at h
        · injection h with h
          subst h
          exact ⟨rfl, fun hbf => absurd hb (by simp [hbf]), fun _ => rfl⟩
    · next hb =>
      cases h2 : queue_all c { st with doc := { st.doc with recipients := get_recipients st } } with
      | error e => rw [h2] at h; simp at h
      | ok st2 =>
        rw [h2] at h
        injection h with h
        subst h
        have hs := queue_all_ok_shape _ _ _ h2
        refine ⟨rfl, fun _ => ?_, fun hbt => absurd hbt hb⟩
        simpa using hs.1

/-- C4: a send on a job already marked Sent fails with the "already sent"
error (so no dispatch happens and nothing changes), and after any successful
send the job is marked Sent, an immediately repeated send fails with that
error, and the synchronous path recorded exactly one outbound dispatch while
the asynchronous path recorded none — hence two back-to-back calls produce
exactly one dispatch and leave the job Sent. -/
theorem C4_no_double_send (b : Bool) (c : Collab) (st st1 : MailState) :
    (st.doc.email_sent = true → send_emails b c st = Except.error NLErr.alreadySent)
    ∧ (send_emails b c st = Except.ok st1 →
        st1.doc.email_sent = true
        ∧ send_emails b c st1 = Except.error NLErr.alreadySent
        ∧ (b = false → st1.dispatched = st.dispatched ++ [st1.doc.recipients])
        ∧ (b = true → st1.dispatched = st.dispatched)) := by
  constructor
  · intro h
    unfold send_emails
    simp [h]
  · intro h
    have hs := send_emails_ok_shape b c st st1 h
    refine ⟨hs.1, ?_, hs.2.1, hs.2.2⟩
    unfold send_emails
    simp [hs.1]

/-- C4, witness: the synchronous run on the concrete C2 state dispatches to
the one subscriber; repeating it on the resulting state fails with the
"already sent" error. -/
theorem C4_witness :
    send_emails false c2collab
        { c2st with
          doc := { c2st.doc with recipients := ["a@x"], email_sent := true },
          dispatched := [["a@x"]] }
      = Except.error NLErr.alreadySent :=
  ((C4_no_double_send false c2collab c2st
      { c2st with
        doc := { c2st.doc with recipients := ["a@x"], email_sent := true },
        dispatched := [["a@x"]] }).2 rfl).2.1

/-- C5: whenever the send path of the background handler (`queue_all` on the
freshly loaded document) raises, `send_newsletter` re-raises the same error
and the observable state it commits first has the sent-flag cleared
(`email_sent = 0`) and no dispatch recorded — the rollback-and-reset rule. -/
theorem C5_failure_resets_sent_flag (c : Collab) (st : MailState) (e : NLErr)
    (h : queue_all c { st with doc := { st.doc with recipients := [] } }
      = Except.error e) :
    send_newsletter c st = JobResult.failed e
      { st with doc := { st.doc with recipients := [], email_sent := false } } := by
  unfold send_newsletter
  rw [h]

/-- C5, witness: with a mail queue that raises, the handler on the concrete
C2 state fails with the send error and the committed state has
`email_sent = false` and nothing dispatched. -/
theorem C5_witness :
    send_newsletter ⟨fun _ => true, false⟩
        { c2st with doc := { c2st.doc with email_sent := true } }
      = JobResult.failed NLErr.sendFailed
        { c2st with doc := { c2st.doc with email_sent := false } } :=
  C5_failure_resets_sent_flag ⟨fun _ => true, false⟩
    { c2st with doc := { c2st.doc with email_sent := true } } NLErr.sendFailed rfl

/-- C6, evaluation at the failing input: an enabled non-standard System User
(another System Manager exists, no globally disabled roles) whose role table
holds three identical rows.  `ensure_unique_roles` removes a row while
iterating the same list by index, so the element shifted into the freed slot
is skipped: the pipeline ends with the duplicate pair
`["Accounts User", "Accounts User"]` — the role set is *not* duplicate-free,
contradicting the claim. -/
theorem C6_duplicate_roles_survive :
    validateRoles true "u@x.com" UserType.systemUser true []
        ["Accounts User", "Accounts User", "Accounts User"]
      = ["Accounts User", "Accounts User"]
    ∧ ¬ (validateRoles true "u@x.com" UserType.systemUser true []
        ["Accounts User", "Accounts User", "Accounts User"]).Nodup := by
  have h1 : validateRoles true "u@x.com" UserType.systemUser true []
      ["Accounts User", "Accounts User", "Accounts User"]
      = ["Accounts User", "Accounts User"] := by
    simp [validateRoles, add_system_manager_role, ensure_unique_roles, ensureUniqueAux,
      remove_all_roles_for_guest, remove_disabled_roles, STANDARD_USERS]
  refine ⟨h1, ?_⟩
  rw [h1]
  decide

/-- Concrete input for C7: a freshly inserted non-standard account with the
welcome mail enabled, so the `try` body reaches `frappe.sendmail`. -/
def c7doc : NotifyDoc :=
  { in_insert := true, name := "u@x.com", new_password := false,
    no_welcome_mail := false, send_welcome_email := true,
    send_password_update_notification := false }

/-- C7, counterexample: the claim says *any* failure raised while sending the
notification is caught and suppressed.  The `except` clause of the source names
only `frappe.OutgoingEmailError`, so an exception of any other class raised
by the mail collaborator propagates out of `send_password_notification`. -/
theorem C7_counterexample :
    send_password_notification c7doc (some PyExc.otherError)
      = Except.error PyExc.otherError := rfl

/-- C7, amended: a failure of class `frappe.OutgoingEmailError` raised while
sending the welcome or password notification during `on_update` is caught
and suppressed (logged only), leaving exactly the outcome of a successful
send; exceptions of any other class propagate to the caller. -/
theorem C7_outgoing_email_error_suppressed (d : NotifyDoc) :
    send_password_notification d (some PyExc.outgoingEmailError) = Except.ok ()
    ∧ send_password_notification d (some PyExc.outgoingEmailError)
        = send_password_notification d none := by
  have hok : ∀ mail, mail = none ∨ mail = some PyExc.outgoingEmailError →
      send_password_notification d mail = Except.ok () := by
    intro mail hmail
    rcases hmail with rfl | rfl
    · unfold send_password_notification send_password_notification_body
      repeat' first | rfl | split
    · unfold send_password_notification send_password_notification_body
      repeat' first | rfl | split
      all_goals simp_all
  refine ⟨hok _ (Or.inr rfl), ?_⟩
  rw [hok _ (Or.inr rfl), hok _ (Or.inl rfl)]

/-- Helper: updating the first matching membership row twice is the same as
updating it once (the updated row still matches, so the second pass rewrites
the same flag). -/
lemma unsubscribeAux_idem (email g : String) (ms : List Member) :
    unsubscribeAux email g (unsubscribeAux email g ms) = unsubscribeAux email g ms := by
  induction ms with
  | nil => rfl
  | cons m ms ih =>
    by_cases hm : (m.email == email && m.email_group == g) = true
    · simp [unsubscribeAux, hm]
    · simp [unsubscribeAux, hm, ih]

/-- Helper: with no matching membership row, the unsubscribe pass is the
identity. -/
lemma unsubscribeAux_absent (email g : String) (ms : List Member)
    (h : ∀ m ∈ ms, ¬(m.email = email ∧ m.email_group = g)) :
    unsubscribeAux email g ms = ms := by
  induction ms with
  | nil => rfl
  | cons m ms ih =>
    have hm : (m.email == email && m.email_group == g) = false := by
      have := h m (List.mem_cons_self m ms)
      by_cases h1 : m.email = email <;> by_cases h2 : m.email_group = g <;>
        simp_all
    simp [unsubscribeAux, hm]
    exact ih fun x hx => h x (List.mem_cons_of_mem m hx)

/-- C8: `unsubscribe` is idempotent — a second call with the same
(email, group) pair yields the same final membership state (and the function
is total, so it never errors) — and a call for a pair with no membership row
returns the state unchanged. -/
theorem C8_unsubscribe_idempotent (verified : Bool) (email g : String)
    (ms : List Member) :
    unsubscribe verified email g (unsubscribe verified email g ms)
      = unsubscribe verified email g ms
    ∧ ((∀ m ∈ ms, ¬(m.email = email ∧ m.email_group = g)) →
        unsubscribe verified email g ms = ms) := by
  constructor
  · cases verified with
    | false => rfl
    | true => simp [unsubscribe, unsubscribeAux_idem]
  · intro h
    cases verified with
    | false => rfl
    | true => simp [unsubscribe, unsubscribeAux_absent email g ms h]

/-- C8, witness: two subscribed members of group "G"; unsubscribing "a@x"
twice equals doing it once, and unsubscribing an absent address changes
nothing. -/
theorem C8_witness :
    unsubscribe true "b@x" "G" [⟨"G", "a@x", false⟩] = [⟨"G", "a@x", false⟩] :=
  (C8_unsubscribe_idempotent true "b@x" "G" [⟨"G", "a@x", false⟩]).2 (by decide)

/-- Helper: a positive `get_other_system_managers` query yields an enabled
System Manager holder distinct from the queried account. -/
lemma other_sm_exists (selfName : String) (db : List DbUser)
    (h : get_other_system_managers selfName db = true) :
    ∃ u ∈ db, u.enabled = true ∧ "System Manager" ∈ u.roles ∧ u.name ≠ selfName
      ∧ u.name ≠ "Administrator" := by
  unfold get_other_system_managers at h
  rw [List.any_eq_true] at h
  obtain ⟨u, hu, hp⟩ := h
  simp only [Bool.and_eq_true, bne_iff_ne, ne_eq, decide_eq_true_eq] at hp
  exact ⟨u, hu, hp.1.1.2, List.elem_iff.mp hp.1.1.1.1, hp.2, hp.1.2⟩

/-- Helper: a successful disable leaves some enabled System Manager holder in
the database (the very account the `get_other_system_managers` check found). -/
lemma disable_preserves_manager (n : String) (db db2 : List DbUser)
    (h : disableUser n db = Except.ok db2) : someEnabledSystemManager db2 := by
  unfold disableUser at h
  cases hc : check_enable_disable n false db with
  | error e => rw [hc] at h; simp at h
  | ok u =>
    rw [hc] at h
    injection h with h
    subst h
    unfold check_enable_disable at hc
    split at hc
    · simp at hc
    · next hcond =>
      have hg : get_other_system_managers n db = true := by
        by_cases hg2 : get_other_system_managers n db = true
        · exact hg2
        · rw [Bool.not_eq_true] at hg2
          rw [hg2] at hc
          simp at hc
      obtain ⟨u, hu, he, hsm, hne, _⟩ := other_sm_exists n db hg
      refine ⟨if u.name == n then { u with enabled := false } else u,
        List.mem_map_of_mem _ hu, ?_⟩
      have : (u.name == n) = false := beq_eq_false_iff_ne.mpr hne
      simp [this, he, hsm]

/-- Helper: any sequence of disable attempts preserves the presence of an
enabled System Manager holder. -/
lemma runDisables_preserves (names : List String) (db : List DbUser)
    (h : someEnabledSystemManager db) :
    someEnabledSystemManager (runDisables names db) := by
  induction names generalizing db with
  | nil => exact h
  | cons n ns ih =>
    rw [runDisables, List.foldl_cons]
    cases hd : disableUser n db with
    | error e =>
      exact ih db h
    | ok db2 =>
      exact ih db2 (disable_preserves_manager n db db2 hd)

/-- C3: saving a standard account ("Guest", "Administrator") as disabled
always fails; saving any other account as disabled fails with the
last-manager error whenever no other enabled account — distinct from this
account and from Administrator — holds the System Manager role (a failed save
leaves the database untouched, the error carries no state); and consequently
no sequence of disable operations can take a database that has an enabled
System Manager holder to one with none. -/
theorem C3_disable_safety (selfName : String) (db : List DbUser) :
    (selfName ∈ STANDARD_USERS →
      disableUser selfName db = Except.error UserErr.cannotDisable)
    ∧ (selfName ∉ STANDARD_USERS →
        (∀ u ∈ db, u.name ≠ selfName → u.name ≠ "Administrator" →
          u.enabled = true → "System Manager" ∉ u.roles) →
        disableUser selfName db = Except.error UserErr.lastManager)
    ∧ (∀ names, someEnabledSystemManager db →
        someEnabledSystemManager (runDisables names db)) := by
  refine ⟨?_, ?_, fun names h => runDisables_preserves names db h⟩
  · intro h
    have hc : STANDARD_USERS.contains selfName = true := List.elem_iff.mpr h
    simp [disableUser, check_enable_disable, hc, h]
  · intro hstd hno
    have hcont : STANDARD_USERS.contains selfName = false :=
      Bool.eq_false_iff.mpr fun hc => hstd (List.elem_iff.mp hc)
    have hg : get_other_system_managers selfName db = false := by
      by_cases hgt : get_other_system_managers selfName db = true
      · obtain ⟨u, hu, he, hsm, hne, hA⟩ := other_sm_exists selfName db hgt
        exact absurd hsm (hno u hu hne hA he)
      · rw [Bool.not_eq_true] at hgt
        exact hgt
    simp [disableUser, check_enable_disable, hcont, hg, hstd]

/-- C3, witness: disabling "u@x.com" when the only other user holds no
System Manager role fails with the last-manager error. -/
theorem C3_witness :
    disableUser "u@x.com" [⟨"v@x.com", true, UserType.systemUser, 1, 0, []⟩]
      = Except.error UserErr.lastManager :=
  (C3_disable_safety "u@x.com"
    [⟨"v@x.com", true, UserType.systemUser, 1, 0, []⟩]).2.1 (by decide) (by decide)

/-- C9: redeeming a password reset with a token that matches no account
returns the "Cannot Update: Incorrect / Expired Link." message with the state
untouched — no password write, no session; redeeming with a token that
resolves to account `u` writes the new password to the store for `u`, clears
the reset token and pending redirect field of `u`, establishes the session as `u`
(`login_as`), and returns a redirect. -/
theorem C9_update_password_paths (checkOk : Bool) (new key old : String)
    (st : PwState) :
    (key ≠ "" → (∀ u ∈ st.users, u.reset_password_key ≠ key) →
      update_password checkOk new key old st
        = (PwOutcome.message "Cannot Update: Incorrect / Expired Link.", st))
    ∧ (∀ u, key ≠ "" →
        st.users.find? (fun v => v.reset_password_key == key) = some u →
        st.users.find? (fun v => v.name == u.name) = some u →
        (update_password checkOk new key old st).2.passwords
            = st.passwords ++ [(u.name, new)]
        ∧ (update_password checkOk new key old st).2.users
            = st.users.map (fun v : PwUser =>
                if v.name == u.name
                then { v with reset_password_key := "", redirect_url := "" } else v)
        ∧ (update_password checkOk new key old st).2.logged_in = some u.name
        ∧ ∃ url, (update_password checkOk new key old st).1
            = PwOutcome.redirect url) := by
  constructor
  · intro hkey hno
    have hf : st.users.find? (fun v => v.reset_password_key == key) = none :=
      List.find?_eq_none.mpr fun x hx => by simpa using hno x hx
    simp [update_password, _get_user_for_update_password, hkey, hf]
  · intro u hkey hfind hfind2
    rcases hcache : st.cacheRedirect.find? (fun p => p.1 == u.name) with _ | p <;>
      cases hut : u.user_type <;>
      refine ⟨?_, ?_, ?_, ?_⟩ <;>
      simp [update_password, _get_user_for_update_password, hkey, hfind, hfind2,
        hcache, hut]

/-- The user row and state for the concrete C9 run. -/
def c9user : PwUser :=
  { name := "u@x.com", reset_password_key := "K1", redirect_url := "/after",
    user_type := UserType.websiteUser }

/-- State for the concrete C9 run: one user holding reset token "K1". -/
def c9st : PwState :=
  { users := [c9user], cacheRedirect := [], session_user := "Guest",
    passwords := [], verified := [], logged_in := none }

/-- C9, witness: redeeming token "K1" sets the password, and with the wrong
token "BAD" the message is returned and the state is unchanged. -/
theorem C9_witness :
    (update_password false "npw" "K1" "" c9st).2.passwords = [("u@x.com", "npw")]
    ∧ update_password false "npw" "BAD" "" c9st
      = (PwOutcome.message "Cannot Update: Incorrect / Expired Link.", c9st) :=
  ⟨((C9_update_password_paths false "npw" "K1" "" c9st).2 c9user
      (by decide) rfl rfl).1,
   (C9_update_password_paths false "npw" "BAD" "" c9st).1 (by decide) (by decide)⟩

/-- C10: when both a reset token and an old password are supplied, the token
path takes precedence — the run is identical to the run with no old password
at all, and `check_password` is never invoked (the verification log is
unchanged), so the old password is never verified against any account. -/
theorem C10_token_precedence (checkOk : Bool) (new key old : String) (st : PwState)
    (hkey : key ≠ "") :
    update_password checkOk new key old st = update_password checkOk new key "" st
    ∧ (update_password checkOk new key old st).2.verified = st.verified := by
  constructor
  · simp [update_password, _get_user_for_update_password, hkey]
  · rcases h1 : st.users.find? (fun v => v.reset_password_key == key) with _ | u
    · simp [update_password, _get_user_for_update_password, hkey, h1]
    · rcases h2 : st.users.find? (fun v => v.name == u.name) with _ | w
      · simp [update_password, _get_user_for_update_password, hkey, h1, h2]
      · rcases h3 : st.cacheRedirect.find? (fun p => p.1 == u.name) with _ | p <;>
          cases hut : w.user_type <;>
          simp [update_password, _get_user_for_update_password, hkey, h1, h2, h3, hut]

/-- C10, witness: with both token "K1" and an old password "oldpw" supplied,
the outcome equals the token-only run and no password verification happened. -/
theorem C10_witness :
    update_password true "npw" "K1" "oldpw" c9st
      = update_password true "npw" "K1" "" c9st
    ∧ (update_password true "npw" "K1" "oldpw" c9st).2.verified = [] :=
  C10_token_precedence true "npw" "K1" "oldpw" c9st (by decide)

end Frappe
